import Mathlib

/-!
Verification of the MCP2 conversation/session core.

This file shallowly embeds the parts of the MCP2 repository that the
verified properties talk about:

* `src/clients/openaiClient.ts` — `classifyMoodAndLanguage` (the first,
  authoritative revision in that file, lines 82–189): its no-credentials /
  network-error fallback and its field normalization.
* `src/routes/webhooks.ts` — the WhatsApp webhook handler (`handleWebhook`
  below): session state machine, query builder, history store, reply
  composition.
* `src/unnamed/part_004` — a second revision of the webhook handler
  (`handleWebhookV2` below); it is the only revision containing the user
  stats feature (`getUserStats`, the "stats" command).
* `src/clients/spotifyClient.ts` — the primary/alternate playlist
  selection of `getPlaylistForMood` (lines 60–121).

External collaborators (the Spotify search network call, playlist-track
fetching, Twilio delivery, OpenAI completion, locale date formatting) are
passed in as explicit oracles/parameters; everything the repository itself
computes is translated faithfully.

JavaScript semantics modelled explicitly:
* `jsTrim` / `jsToLower` model `String.prototype.trim` / `toLowerCase`
  (structural recursion over the character list, so the kernel can
  evaluate them; ASCII case folding, standard whitespace set).
* `jsOr o` models `x || null` on a `string | null | undefined` value:
  the empty string is falsy and collapses to `null`.
* `truthy o` models the boolean test `if (x)` on such a value.
* `lexLe` / `strLeb` model `a.localeCompare(b) <= 0` on the ASCII ISO
  timestamp strings the code compares.

The in-memory `Map`s `sessions` and `history` are keyed by the sender
address and every turn only reads and writes the entries of the sending
user, so the handlers are embedded over a single user's slice of state:
the user's `Option SessionState` and `List HistoryEntry`.
-/

namespace MCP2

/-! ## JavaScript string primitives -/

def jsIsWhitespace (c : Char) : Bool :=
  c = ' ' || c = '\t' || c = '\n' || c = '\r' || c = '\x0b' || c = '\x0c'

/-- Model of `String.prototype.trim`. -/
def jsTrim (s : String) : String :=
  String.mk (((s.data.dropWhile jsIsWhitespace).reverse.dropWhile jsIsWhitespace).reverse)

def jsLowerChar (c : Char) : Char :=
  if 'A' ≤ c && c ≤ 'Z' then Char.ofNat (c.toNat + 32) else c

/-- Model of `String.prototype.toLowerCase` (ASCII range). -/
def jsToLower (s : String) : String :=
  String.mk (s.data.map jsLowerChar)

/-- Lexicographic `≤` on character lists; models `localeCompare` on the
ASCII strings (ISO timestamps) the code sorts by. -/
def lexLe : List Char → List Char → Bool
  | [], _ => true
  | _ :: _, [] => false
  | a :: as, b :: bs => if a = b then lexLe as bs else decide (a < b)

def strLeb (a b : String) : Bool :=
  lexLe a.data b.data

/-- `x || null` on a nullable string: empty string collapses to null. -/
def jsOr : Option String → Option String
  | some s => if s.isEmpty then none else some s
  | none => none

/-- Truthiness test `if (x)` on a nullable string. -/
def truthy : Option String → Bool
  | some s => !s.isEmpty
  | none => false

/-! ## Data model (openaiClient.ts, webhooks.ts) -/

/-- `IntentType` from `src/clients/openaiClient.ts`. Note the type has no
`user_stats` member. -/
inductive IntentType
  | playlist
  | artist_search
  | repeat_
  | change_vibe
  | other
deriving DecidableEq, Repr

/-- The TypeScript string value of each intent (intents are strings at
runtime and are compared as such by the webhook code). -/
def intentToString : IntentType → String
  | .playlist => "playlist"
  | .artist_search => "artist_search"
  | .repeat_ => "repeat"
  | .change_vibe => "change_vibe"
  | .other => "other"

/-- `ClassificationResult` from `src/clients/openaiClient.ts`. -/
structure ClassificationResult where
  mood : Option String := none
  language : Option String := none
  vibe : Option String := none
  artist : Option String := none
  track : Option String := none
  intent : IntentType := .playlist
deriving DecidableEq, Repr

inductive SessionStage
  | idle
  | waiting_language
  | playlist_shown
deriving DecidableEq, Repr

/-- `SessionState` from `src/routes/webhooks.ts`. -/
structure SessionState where
  stage : SessionStage
  mood : Option String := none
  language : Option String := none
  vibe : Option String := none
  lastPlaylistId : Option String := none
  lastArtist : Option String := none
  lastTrack : Option String := none
  lastIntent : Option String := none
deriving DecidableEq, Repr

/-- `HistoryEntry` from `src/routes/webhooks.ts`. -/
structure HistoryEntry where
  mood : String
  language : String
  playlistId : String
  playlistName : Option String := none
  playlistUrl : Option String := none
  lastUsedAt : String
deriving DecidableEq, Repr

/-- `TrackInfo` from `src/clients/spotifyClient.ts`. -/
structure TrackInfo where
  name : String
  artists : String
  url : Option String := none
deriving DecidableEq, Repr

/-- `PlaylistMeta` from `src/clients/spotifyClient.ts`. -/
structure PlaylistMeta where
  id : String
  name : String
  url : Option String := none
deriving DecidableEq, Repr

/-- `TracksWithMeta` from `src/clients/spotifyClient.ts`: the track array
with the `playlist` / `alternatePlaylist` fields attached to it. -/
structure TracksWithMeta where
  tracks : List TrackInfo
  playlist : Option PlaylistMeta := none
  alternatePlaylist : Option PlaylistMeta := none
deriving DecidableEq, Repr

/-- The catalog search collaborator `getPlaylistForMood(query, language,
excludeId)` as seen from the webhook handler. -/
abbrev SearchFn := String → String → Option String → TracksWithMeta

/-- Which reply template a turn composed (observation tag; one value per
`return`-ing branch of the handler). -/
inductive Outcome
  | badRequest
  | repeatReply
  | rephrase
  | clarifyLanguage
  | notFound
  | recommended
  | statsReply
  | statsEmpty
deriving DecidableEq, Repr

/-- Arguments of the turn's `getPlaylistForMood` call, when one happened
(observation of the single search call a branch makes). -/
structure SearchCall where
  query : String
  language : String
  excludeId : Option String
deriving DecidableEq, Repr

/-- Result of processing one inbound message: HTTP outcome flag, the text
sent back via Twilio (if any), the user's session and history after the
turn, plus the two observation fields. -/
structure TurnResult where
  ok : Bool
  reply : Option String
  session : Option SessionState
  history : List HistoryEntry
  outcome : Outcome
  searchCall : Option SearchCall
deriving DecidableEq, Repr

/-! ## History store (webhooks.ts lines 38–61, identical in part_004) -/

/-- `normalizeText` from `src/routes/webhooks.ts`. -/
def normalizeText (text : Option String) : String :=
  jsTrim (text.getD "")

/-- The case-insensitive `(mood, language)` filter inside `getLastHistory`. -/
def historyKeyMatches (mood language : String) (e : HistoryEntry) : Bool :=
  (jsToLower e.mood == jsToLower mood) && (jsToLower e.language == jsToLower language)

/-- `getLastHistory` from `src/routes/webhooks.ts`: filter by
case-insensitive mood and language, sort descending by `lastUsedAt`
(`b.localeCompare(a)`), take the first element (`undefined` when empty). -/
def getLastHistory (list : List HistoryEntry) (mood language : String) : Option HistoryEntry :=
  ((list.filter (historyKeyMatches mood language)).mergeSort
    (fun a b => strLeb b.lastUsedAt a.lastUsedAt)).head?

/-- `addHistory` from `src/routes/webhooks.ts` (`list.push(entry)`). -/
def addHistory (list : List HistoryEntry) (entry : HistoryEntry) : List HistoryEntry :=
  list ++ [entry]

/-! ## Reply composition helpers -/

/-- `replyLines.filter(Boolean).join("\n")`. -/
def joinReply (lines : List String) : String :=
  String.intercalate "\n" (lines.filter (fun l => !l.isEmpty))

/-- `cond ? prefixText + value : ""` on a nullable string. -/
def optLine (pre : String) (o : Option String) : String :=
  match jsOr o with
  | some u => pre ++ u
  | none => ""

/-- The `altMeta && altMeta.url` block of `src/routes/webhooks.ts`. -/
def altPlaylistLines (t : TracksWithMeta) : List String :=
  match t.alternatePlaylist with
  | some alt =>
      match jsOr alt.url with
      | some u =>
          ["", "You can also try this alternate playlist:",
           "Alt playlist: " ++ alt.name, "Alt link: " ++ u]
      | none => []
  | none => []

/-! ## Query builder (webhooks.ts lines 97–111 and 373–387) -/

/-- The search query built by `src/routes/webhooks.ts` (the identical code
appears in the waiting-language branch and the fresh-classification
branch). `intent` is the runtime string the code compares with
`"artist_search"`. -/
def buildSearchQuery (intent : String) (artist track mood vibe : Option String)
    (textLower : String) : String :=
  if intent = "artist_search" then
    let parts : List String :=
      (if truthy artist then [artist.getD ""] else []) ++
      (if truthy track then [track.getD ""] else [])
    let parts2 := if parts.isEmpty && truthy mood then parts ++ [mood.getD ""] else parts
    let parts3 := if parts2.isEmpty then parts2 ++ [textLower] else parts2
    jsTrim (String.intercalate " " parts3)
  else
    let moodPieces : List String :=
      (if truthy mood then [mood.getD ""] else []) ++
      (if truthy vibe then [vibe.getD ""] else [])
    let q := jsTrim (String.intercalate " " moodPieces)
    if q.isEmpty then textLower else q

/-- The query built by the `part_004` revision (lines 169–174 and 317–322):
`[artist, track, mood, textLower].filter(Boolean).join(" ")` for artist
search, `[mood, vibe].filter(Boolean).join(" ") || textLower` otherwise. -/
def buildSearchQueryV2 (intent : String) (artist track mood vibe : Option String)
    (textLower : String) : String :=
  if intent = "artist_search" then
    String.intercalate " " ([artist, track, mood, some textLower].filterMap jsOr)
  else
    let q := String.intercalate " " ([mood, vibe].filterMap jsOr)
    if q.isEmpty then textLower else q

/-! ## Webhook handler, primary revision (src/routes/webhooks.ts) -/

/-- The `waiting_language` branch (lines 83–196): the message itself is the
language; mood/vibe/artist/track/intent come from the stored session. -/
def handleWaitingLanguage (session : Option SessionState) (current : SessionState)
    (hist : List HistoryEntry) (textLower : String)
    (search : SearchFn) (fmtDate : String → String) (now : String) : TurnResult :=
  let language := textLower
  let mood := jsOr current.mood
  let vibe := jsOr current.vibe
  let artist := jsOr current.lastArtist
  let track := jsOr current.lastTrack
  let intent := (jsOr current.lastIntent).getD "playlist"
  let previous : Option HistoryEntry :=
    match mood with
    | some m => getLastHistory hist m language
    | none => none
  let excludeId := previous.map (fun p => p.playlistId)
  let searchQuery := buildSearchQuery intent artist track mood vibe textLower
  let tracks := search searchQuery language excludeId
  let prevLines : List String :=
    match previous with
    | some p =>
        ["📅 Last time you listened to a \"" ++ p.mood ++ "\" playlist in \"" ++
           p.language ++ "\" was on " ++ fmtDate p.lastUsedAt ++ ".",
         "Same playlist: " ++ ((jsOr p.playlistName).getD "(no name)"),
         optLine "Same playlist link: " p.playlistUrl,
         ""]
    | none => []
  match tracks.tracks, tracks.playlist with
  | first :: _, some playlistMeta =>
      let lines := prevLines ++
        ["🎧 Here\x27s a playlist for your request in \"" ++ language ++ "\":",
         "Playlist: " ++ playlistMeta.name,
         optLine "Playlist link: " playlistMeta.url,
         "",
         "Song: " ++ first.name,
         "Artists: " ++ first.artists,
         optLine "Song link: " first.url] ++ altPlaylistLines tracks
      let newHist :=
        match mood with
        | some m =>
            addHistory hist
              { mood := m, language := language, playlistId := playlistMeta.id,
                playlistName := some playlistMeta.name, playlistUrl := playlistMeta.url,
                lastUsedAt := now }
        | none => hist
      let newSession : SessionState :=
        { stage := .playlist_shown, mood := mood, language := some language, vibe := vibe,
          lastPlaylistId := some playlistMeta.id, lastArtist := artist, lastTrack := track,
          lastIntent := some intent }
      { ok := true, reply := some (joinReply lines), session := some newSession,
        history := newHist, outcome := .recommended,
        searchCall := some ⟨searchQuery, language, excludeId⟩ }
  | _, _ =>
      let lines := prevLines ++
        ["I couldn\x27t find playlists for your request in \"" ++ language ++ "\".",
         "Try another mood, artist, or language (e.g. \"sad english\", \"songs from drake\", etc)."]
      { ok := true, reply := some (joinReply lines), session := session,
        history := hist, outcome := .notFound,
        searchCall := some ⟨searchQuery, language, excludeId⟩ }

/-- `hasCurrentPlaylist` (lines 220–224). -/
def hasCurrentPlaylist (current : SessionState) : Bool :=
  decide (current.stage = SessionStage.playlist_shown) && truthy current.mood &&
    truthy current.language && truthy current.lastPlaylistId

/-- The REPEAT branch (lines 231–251): replay the stored most-recent match,
no search, no history append, no session write. -/
def handleRepeat (session : Option SessionState) (current : SessionState)
    (hist : List HistoryEntry) : TurnResult :=
  let baseMood := current.mood.getD ""
  let baseLanguage := current.language.getD ""
  let prev := getLastHistory hist baseMood baseLanguage
  let lines :=
    ["🔁 Re-playing your last \"" ++ baseMood ++ "\" playlist in \"" ++ baseLanguage ++ "\"."] ++
    (match jsOr (prev.bind (fun p => p.playlistName)) with
     | some n => ["Playlist: " ++ n]
     | none => []) ++
    (match jsOr (prev.bind (fun p => p.playlistUrl)) with
     | some u => ["Link: " ++ u]
     | none => [])
  { ok := true, reply := some (joinReply lines), session := session, history := hist,
    outcome := .repeatReply, searchCall := none }

/-- The CHANGE VIBE branch (lines 254–329). -/
def handleChangeVibe (session : Option SessionState) (current : SessionState)
    (hist : List HistoryEntry) (vibe artist track : Option String) (intent : IntentType)
    (search : SearchFn) (now : String) : TurnResult :=
  let baseMood := current.mood.getD ""
  let baseLanguage := current.language.getD ""
  let newVibe := jsOr (some (jsToLower ((vibe.orElse fun _ => jsOr current.vibe).getD "")))
  let moodQuery :=
    match newVibe with
    | some nv => baseMood ++ " " ++ nv
    | none => baseMood
  let prev := getLastHistory hist baseMood baseLanguage
  let excludeId := prev.map (fun p => p.playlistId)
  let tracks := search moodQuery baseLanguage excludeId
  match tracks.tracks, tracks.playlist with
  | first :: _, some playlistMeta =>
      let lines :=
        ["🌊 Changing vibe to \"" ++ (newVibe.getD "different") ++ "\" for your \"" ++
           baseMood ++ "\" mood in \"" ++ baseLanguage ++ "\":",
         "Playlist: " ++ playlistMeta.name,
         optLine "Playlist link: " playlistMeta.url,
         "",
         "Song: " ++ first.name,
         "Artists: " ++ first.artists,
         optLine "Song link: " first.url] ++ altPlaylistLines tracks
      let newHist :=
        addHistory hist
          { mood := baseMood, language := baseLanguage, playlistId := playlistMeta.id,
            playlistName := some playlistMeta.name, playlistUrl := playlistMeta.url,
            lastUsedAt := now }
      let newSession : SessionState :=
        { stage := .playlist_shown, mood := some baseMood, language := some baseLanguage,
          vibe := newVibe, lastPlaylistId := some playlistMeta.id, lastArtist := artist,
          lastTrack := track, lastIntent := some (intentToString intent) }
      { ok := true, reply := some (joinReply lines), session := some newSession,
        history := newHist, outcome := .recommended,
        searchCall := some ⟨moodQuery, baseLanguage, excludeId⟩ }
  | _, _ =>
      let lines :=
        ["I couldn\x27t find a new \"" ++ baseMood ++ "\" playlist with a different vibe in \"" ++
           baseLanguage ++ "\".",
         "Try another mood or say something like \"sad english\", \"happy hindi\", etc."]
      { ok := true, reply := some (joinReply lines), session := session, history := hist,
        outcome := .notFound, searchCall := some ⟨moodQuery, baseLanguage, excludeId⟩ }

/-- The brand-new-request path 2b (lines 331–476): rephrase when nothing was
extracted; ask for the language when it is missing (storing the session);
otherwise search and, on success, append history (only when a mood is
known) and store the full session. -/
def handleFresh (session : Option SessionState) (hist : List HistoryEntry) (textLower : String)
    (mood detectedLanguage vibe artist track : Option String) (intent : IntentType)
    (search : SearchFn) (fmtDate : String → String) (now : String) : TurnResult :=
  if mood = none ∧ artist = none ∧ track = none then
    { ok := true,
      reply := some "I couldn\x27t quite understand that. Try something like: \x27sad english\x27, \x27chill hindi\x27, or \x27songs from drake\x27.",
      session := session, history := hist, outcome := .rephrase, searchCall := none }
  else if detectedLanguage = none then
    let newSession : SessionState :=
      { stage := .waiting_language, mood := mood, language := none, vibe := vibe,
        lastPlaylistId := none, lastArtist := artist, lastTrack := track,
        lastIntent := some (intentToString intent) }
    let desc := ((mood.orElse fun _ => artist).orElse fun _ => track).getD textLower
    { ok := true,
      reply := some ("Got it, I\x27ll find music for \"" ++ desc ++ "\".\n" ++
        "Which language do you prefer? (english, hindi, punjabi, tamil, telugu, etc)"),
      session := some newSession, history := hist, outcome := .clarifyLanguage,
      searchCall := none }
  else
    let language := detectedLanguage.getD ""
    let previous : Option HistoryEntry :=
      match mood with
      | some m => getLastHistory hist m language
      | none => none
    let excludeId := previous.map (fun p => p.playlistId)
    let searchQuery := buildSearchQuery (intentToString intent) artist track mood vibe textLower
    let tracks := search searchQuery language excludeId
    let prevLines : List String :=
      match previous, mood with
      | some p, some m =>
          ["📅 Last time you listened to a \"" ++ m ++ "\" playlist in \"" ++ language ++
             "\" was on " ++ fmtDate p.lastUsedAt ++ ".",
           "Same playlist: " ++ ((jsOr p.playlistName).getD "(no name)"),
           optLine "Same playlist link: " p.playlistUrl,
           ""]
      | _, _ => []
    match tracks.tracks, tracks.playlist with
    | first :: _, some playlistMeta =>
        let moodLabel :=
          if intent = .artist_search then
            match artist with
            | some a => "songs by " ++ a
            | none => "your request"
          else mood.getD "your mood"
        let lines := prevLines ++
          ["🎧 Here\x27s a playlist for " ++ moodLabel ++ " in \"" ++ language ++ "\":",
           "Playlist: " ++ playlistMeta.name,
           optLine "Playlist link: " playlistMeta.url,
           "",
           "Song: " ++ first.name,
           "Artists: " ++ first.artists,
           optLine "Song link: " first.url] ++ altPlaylistLines tracks
        let newHist :=
          match mood with
          | some m =>
              addHistory hist
                { mood := m, language := language, playlistId := playlistMeta.id,
                  playlistName := some playlistMeta.name, playlistUrl := playlistMeta.url,
                  lastUsedAt := now }
          | none => hist
        let newSession : SessionState :=
          { stage := .playlist_shown, mood := mood, language := some language, vibe := vibe,
            lastPlaylistId := some playlistMeta.id, lastArtist := artist, lastTrack := track,
            lastIntent := some (intentToString intent) }
        { ok := true, reply := some (joinReply lines), session := some newSession,
          history := newHist, outcome := .recommended,
          searchCall := some ⟨searchQuery, language, excludeId⟩ }
    | _, _ =>
        let lines := prevLines ++
          ["I couldn\x27t find playlists for your request \"" ++ searchQuery ++ "\" in \"" ++
             language ++ "\".",
           "Try another combination like \"happy english\", \"sad hindi\", or \"songs from drake\"."]
        { ok := true, reply := some (joinReply lines), session := session, history := hist,
          outcome := .notFound, searchCall := some ⟨searchQuery, language, excludeId⟩ }

/-- The normal flow (lines 198–476): read the classification (`none` models
a thrown classifier call, caught and nulled by the code), then dispatch to
repeat / change-vibe / fresh handling. -/
def handleClassified (session : Option SessionState) (current : SessionState)
    (hist : List HistoryEntry) (textLower : String) (ai : Option ClassificationResult)
    (search : SearchFn) (fmtDate : String → String) (now : String) : TurnResult :=
  let mood := jsOr (ai.bind fun c => c.mood)
  let detectedLanguage := jsOr (ai.bind fun c => c.language)
  let vibe := jsOr (ai.bind fun c => c.vibe)
  let artist := jsOr (ai.bind fun c => c.artist)
  let track := jsOr (ai.bind fun c => c.track)
  let intent := (ai.map fun c => c.intent).getD .playlist
  if hasCurrentPlaylist current ∧ intent = .repeat_ then
    handleRepeat session current hist
  else if hasCurrentPlaylist current ∧ intent = .change_vibe then
    handleChangeVibe session current hist vibe artist track intent search now
  else
    handleFresh session hist textLower mood detectedLanguage vibe artist track intent
      search fmtDate now

/-- The webhook handler of `src/routes/webhooks.ts` for one turn of one
user. `fromAddr` and `bodyRaw` are the raw `From` / `Body` fields; `ai` is
the outcome of `classifyMoodAndLanguage` (`none` = the call threw);
`search` is the `getPlaylistForMood` collaborator; `fmtDate` is
`toLocaleString("en-IN", …)`; `now` is `new Date().toISOString()`. -/
def handleWebhook (fromAddr bodyRaw : Option String) (session : Option SessionState)
    (hist : List HistoryEntry) (ai : Option ClassificationResult)
    (search : SearchFn) (fmtDate : String → String) (now : String) : TurnResult :=
  let text := normalizeText bodyRaw
  let textLower := jsToLower text
  if !truthy fromAddr || text.isEmpty then
    { ok := false, reply := none, session := session, history := hist,
      outcome := .badRequest, searchCall := none }
  else
    let current := session.getD { stage := .idle }
    if current.stage = .waiting_language then
      handleWaitingLanguage session current hist textLower search fmtDate now
    else
      handleClassified session current hist textLower ai search fmtDate now

/-! ## Webhook handler, part_004 revision (stats + voice) -/

/-- `${x}` interpolation of a nullable string (JavaScript renders `null`). -/
def jsShowNullable (o : Option String) : String :=
  o.getD "null"

/-- Insertion-ordered counter map update, modelling
`map.set(k, (map.get(k) ?? 0) + 1)` on a JavaScript `Map`. -/
def bumpCount : List (String × Nat) → String → List (String × Nat)
  | [], k => [(k, 1)]
  | (q, v) :: rest, k =>
      if q = k then (q, v + 1) :: rest else (q, v) :: bumpCount rest k

/-- `topEntry` from `part_004` (lines 87–97): first key with a strictly
larger count wins; iteration follows insertion order. -/
def topEntry (m : List (String × Nat)) : Option String × Nat :=
  m.foldl (fun best kv => if kv.2 > best.2 then (some kv.1, kv.2) else best) (none, 0)

/-- `Stats` record returned by `getUserStats`. -/
structure UserStats where
  totalPlays : Nat
  topMood : Option String
  topMoodCount : Nat
  topLanguage : Option String
  topLanguageCount : Nat
  topPlaylistName : Option String
  topPlaylistCount : Nat
  first : String
  last : String
deriving DecidableEq, Repr

/-- `getUserStats` from `part_004` (lines 70–114). -/
def getUserStats (entries : List HistoryEntry) : Option UserStats :=
  if entries.isEmpty then none
  else
    let moodCounts := entries.foldl (fun m h => bumpCount m h.mood) []
    let languageCounts := entries.foldl (fun m h => bumpCount m h.language) []
    let playlistCounts :=
      entries.foldl (fun m h => bumpCount m ((jsOr h.playlistName).getD h.playlistId)) []
    let topMood := topEntry moodCounts
    let topLang := topEntry languageCounts
    let topPlaylist := topEntry playlistCounts
    some
      { totalPlays := entries.length,
        topMood := topMood.1, topMoodCount := topMood.2,
        topLanguage := topLang.1, topLanguageCount := topLang.2,
        topPlaylistName := topPlaylist.1, topPlaylistCount := topPlaylist.2,
        first := (entries.head?.map fun e => e.lastUsedAt).getD "",
        last := (entries.getLast?.map fun e => e.lastUsedAt).getD "" }

/-- The literal stats command test of `part_004` (lines 250–253). -/
def isStatsCommand (normalizedCommand : String) : Bool :=
  normalizedCommand == "stats" || normalizedCommand == "my stats" ||
    normalizedCommand == "show my stats"

/-- The `altMeta?.url` block of `part_004`. -/
def altPlaylistLinesV2 (t : TracksWithMeta) : List String :=
  match t.alternatePlaylist with
  | some alt =>
      match jsOr alt.url with
      | some u => ["", "Alternate: " ++ alt.name, u]
      | none => []
  | none => []

/-- The `waiting_language` branch of `part_004` (lines 158–227). -/
def handleWaitingLanguageV2 (session : Option SessionState) (current : SessionState)
    (hist : List HistoryEntry) (textLower : String)
    (search : SearchFn) (now : String) : TurnResult :=
  let language := textLower
  let mood := jsOr current.mood
  let vibe := jsOr current.vibe
  let artist := jsOr current.lastArtist
  let track := jsOr current.lastTrack
  let intent := (jsOr current.lastIntent).getD "playlist"
  let prev : Option HistoryEntry :=
    match mood with
    | some m => getLastHistory hist m language
    | none => none
  let excludeId := prev.map (fun p => p.playlistId)
  let searchQuery := buildSearchQueryV2 intent artist track mood vibe textLower
  let tracks := search searchQuery language excludeId
  match tracks.tracks, tracks.playlist with
  | first :: _, some playlistMeta =>
      let lines :=
        ["🎧 Here\x27s something in \"" ++ language ++ "\":",
         "Playlist: " ++ playlistMeta.name,
         optLine "Link: " playlistMeta.url,
         "",
         "Song: " ++ first.name,
         "Artists: " ++ first.artists] ++ altPlaylistLinesV2 tracks
      let newHist :=
        match mood with
        | some m =>
            addHistory hist
              { mood := m, language := language, playlistId := playlistMeta.id,
                playlistName := some playlistMeta.name, playlistUrl := playlistMeta.url,
                lastUsedAt := now }
        | none => hist
      let newSession : SessionState :=
        { stage := .playlist_shown, mood := mood, language := some language, vibe := vibe,
          lastPlaylistId := some playlistMeta.id, lastArtist := artist, lastTrack := track,
          lastIntent := some intent }
      { ok := true, reply := some (joinReply lines), session := some newSession,
        history := newHist, outcome := .recommended,
        searchCall := some ⟨searchQuery, language, excludeId⟩ }
  | _, _ =>
      let lines := ["I couldn\x27t find playlists in \"" ++ language ++ "\". Try another language!"]
      { ok := true, reply := some (joinReply lines), session := session, history := hist,
        outcome := .notFound, searchCall := some ⟨searchQuery, language, excludeId⟩ }

/-- The USER ASKS FOR STATS branch of `part_004` (lines 256–284); note the
stats block is joined with a plain `join("\n")`, without the falsy filter. -/
def handleStats (session : Option SessionState) (hist : List HistoryEntry)
    (fmtDate : String → String) : TurnResult :=
  match getUserStats hist with
  | none =>
      { ok := true,
        reply := some "I don\x27t have any stats yet — ask me for a playlist first!",
        session := session, history := hist, outcome := .statsEmpty, searchCall := none }
  | some stats =>
      let firstDate := fmtDate stats.first
      let lastDate := fmtDate stats.last
      let reply := String.intercalate "\n"
        ["📊 Your Listening Stats:",
         "• Playlists asked: " ++ toString stats.totalPlays,
         "• Favorite mood: " ++ jsShowNullable stats.topMood ++ " (" ++
           toString stats.topMoodCount ++ ")",
         "• Favorite language: " ++ jsShowNullable stats.topLanguage ++ " (" ++
           toString stats.topLanguageCount ++ ")",
         "• Most used playlist: " ++ jsShowNullable stats.topPlaylistName ++ " (" ++
           toString stats.topPlaylistCount ++ ")",
         "",
         "First use: " ++ firstDate,
         "Last use: " ++ lastDate]
      { ok := true, reply := some reply, session := session, history := hist,
        outcome := .statsReply, searchCall := none }

/-- The fetch-playlist path of `part_004` (lines 289–374): ask for the
language when it is missing, otherwise search; `part_004` has no
rephrase, repeat or change-vibe branch. -/
def handleFreshV2 (session : Option SessionState) (hist : List HistoryEntry)
    (textLower : String) (mood detectedLanguage vibe artist track : Option String)
    (intent : IntentType) (search : SearchFn) (now : String) : TurnResult :=
  if detectedLanguage = none then
    let newSession : SessionState :=
      { stage := .waiting_language, mood := mood, language := none, vibe := vibe,
        lastPlaylistId := none, lastArtist := artist, lastTrack := track,
        lastIntent := some (intentToString intent) }
    { ok := true,
      reply := some "Got it! What language do you prefer? (english, hindi, tamil, telugu...)",
      session := some newSession, history := hist, outcome := .clarifyLanguage,
      searchCall := none }
  else
    let language := detectedLanguage.getD ""
    let prev : Option HistoryEntry :=
      match mood with
      | some m => getLastHistory hist m language
      | none => none
    let excludeId := prev.map (fun p => p.playlistId)
    let searchQuery :=
      buildSearchQueryV2 (intentToString intent) artist track mood vibe textLower
    let tracks := search searchQuery language excludeId
    match tracks.tracks, tracks.playlist with
    | first :: _, some playlistMeta =>
        let lines :=
          ["🎧 Playlist Recommendation (" ++ language ++ "):",
           "Playlist: " ++ playlistMeta.name,
           optLine "Link: " playlistMeta.url,
           "",
           "Song: " ++ first.name,
           "Artists: " ++ first.artists] ++ altPlaylistLinesV2 tracks
        let newHist :=
          match mood with
          | some m =>
              addHistory hist
                { mood := m, language := language, playlistId := playlistMeta.id,
                  playlistName := some playlistMeta.name, playlistUrl := playlistMeta.url,
                  lastUsedAt := now }
          | none => hist
        let newSession : SessionState :=
          { stage := .playlist_shown, mood := mood, language := some language, vibe := vibe,
            lastPlaylistId := some playlistMeta.id, lastArtist := artist, lastTrack := track,
            lastIntent := some (intentToString intent) }
        { ok := true, reply := some (joinReply lines), session := some newSession,
          history := newHist, outcome := .recommended,
          searchCall := some ⟨searchQuery, language, excludeId⟩ }
    | _, _ =>
        let lines :=
          ["I couldn\x27t find anything for \"" ++ searchQuery ++ "\". Try another mood or artist!"]
        { ok := true, reply := some (joinReply lines), session := session, history := hist,
          outcome := .notFound, searchCall := some ⟨searchQuery, language, excludeId⟩ }

/-- The webhook handler of `src/unnamed/part_004` for one turn of one user.
Voice transcription happens before the embedded logic, so `bodyRaw` is the
final text (body or transcript). The `waiting_language` branch runs before
the stats check; the stats check compares the intent string against
`"user_stats"`, a value `IntentType` does not contain. -/
def handleWebhookV2 (fromAddr bodyRaw : Option String) (session : Option SessionState)
    (hist : List HistoryEntry) (ai : Option ClassificationResult)
    (search : SearchFn) (fmtDate : String → String) (now : String) : TurnResult :=
  let text := normalizeText bodyRaw
  let textLower := jsToLower text
  if !truthy fromAddr || text.isEmpty then
    { ok := false, reply := some "I couldn\x27t understand that message.",
      session := session, history := hist, outcome := .badRequest, searchCall := none }
  else
    let current := session.getD { stage := .idle }
    if current.stage = .waiting_language then
      handleWaitingLanguageV2 session current hist textLower search now
    else
      let mood := jsOr (ai.bind fun c => c.mood)
      let detectedLanguage := jsOr (ai.bind fun c => c.language)
      let vibe := jsOr (ai.bind fun c => c.vibe)
      let artist := jsOr (ai.bind fun c => c.artist)
      let track := jsOr (ai.bind fun c => c.track)
      let intent := (ai.map fun c => c.intent).getD .playlist
      let normalizedCommand := jsTrim textLower
      if isStatsCommand normalizedCommand || intentToString intent == "user_stats" then
        handleStats session hist fmtDate
      else
        handleFreshV2 session hist textLower mood detectedLanguage vibe artist track intent
          search now

/-! ## Classifier (src/clients/openaiClient.ts, lines 82–189) -/

/-- A field of the JSON object the model returned: absent (missing, null or
any non-string value fails the `typeof x === "string"` test only in its
two shapes) or a string. -/
inductive JField
  | absent
  | nonString
  | str (s : String)
deriving DecidableEq, Repr

/-- The parsed JSON object (`parsed`) field by field. `{}` is the record
with every field absent. -/
structure ParsedClassification where
  mood : JField := .absent
  language : JField := .absent
  vibe : JField := .absent
  artist : JField := .absent
  track : JField := .absent
  intent : JField := .absent
deriving DecidableEq, Repr

/-- How the OpenAI call went: it threw (network/API error), it answered
but `JSON.parse` failed (`parsed = {}` via the inner catch), or it
answered with a parseable object. -/
inductive ApiOutcome
  | threw
  | malformed
  | answered (parsed : ParsedClassification)
deriving DecidableEq, Repr

/-- The graceful fallback (lines 86–97 and 177–188):
`mood = message.trim().toLowerCase() || null`, everything else null,
intent `playlist`. -/
def fallbackClassification (message : String) : ClassificationResult :=
  let text := jsToLower (jsTrim message)
  { mood := if text.isEmpty then none else some text,
    language := none, vibe := none, artist := none, track := none, intent := .playlist }

/-- `typeof v === "string" && v.trim() ? v.trim().toLowerCase() : null`. -/
def normTextField (f : JField) : Option String :=
  match f with
  | .str s => if (jsTrim s).isEmpty then none else some (jsToLower (jsTrim s))
  | _ => none

/-- `typeof v === "string" && v.trim() ? v.trim() : null` (track keeps its
case). -/
def normTrackField (f : JField) : Option String :=
  match f with
  | .str s => if (jsTrim s).isEmpty then none else some (jsTrim s)
  | _ => none

/-- The intent normalization (lines 159–167): lowercase (no trim), match
the four known intents, anything else becomes `other`; a non-string stays
at the default `playlist`. -/
def normIntentField (f : JField) : IntentType :=
  match f with
  | .str s =>
      let i := jsToLower s
      if i = "artist_search" then .artist_search
      else if i = "repeat" then .repeat_
      else if i = "change_vibe" then .change_vibe
      else if i = "playlist" then .playlist
      else .other
  | _ => .playlist

/-- The normalization applied to the parsed response (lines 134–176). -/
def normalizeParsed (parsed : ParsedClassification) : ClassificationResult :=
  { mood := normTextField parsed.mood,
    language := normTextField parsed.language,
    vibe := normTextField parsed.vibe,
    artist := normTextField parsed.artist,
    track := normTrackField parsed.track,
    intent := normIntentField parsed.intent }

/-- `classifyMoodAndLanguage` (lines 82–189). `hasApiKey` models
`client.apiKey` being non-empty; `api` is how the OpenAI call went. The
function is total: no path raises. -/
def classifyMoodAndLanguage (hasApiKey : Bool) (message : String)
    (api : ApiOutcome) : ClassificationResult :=
  if !hasApiKey then fallbackClassification message
  else
    match api with
    | .threw => fallbackClassification message
    | .malformed => normalizeParsed {}
    | .answered parsed => normalizeParsed parsed

/-! ## Playlist selection (src/clients/spotifyClient.ts, lines 60–121) -/

/-- One raw playlist item of the Spotify search response (`p.id`, `p.name`,
`p.external_urls?.spotify`); the surrounding `Option` models null items in
the array. -/
structure RawPlaylist where
  id : String
  name : String
  url : Option String := none
deriving DecidableEq, Repr

/-- `(rawItems as any[]).filter((p) => p && p.id)`. -/
def validPlaylists (rawItems : List (Option RawPlaylist)) : List RawPlaylist :=
  (rawItems.filterMap fun x => x).filter (fun p => !p.id.isEmpty)

/-- `p.id !== excludePlaylistId` (`undefined` compares unequal to any id). -/
def idNotExcluded (excludePlaylistId : Option String) (p : RawPlaylist) : Bool :=
  match excludePlaylistId with
  | none => true
  | some e => p.id != e

def metaOf (p : RawPlaylist) : PlaylistMeta :=
  { id := p.id, name := p.name, url := p.url }

/-- `getPlaylistForMood` (lines 60–121) after the network search returned
`rawItems`: pick the first non-excluded playlist as primary (falling back
to the first playlist when every hit is excluded), a second distinct
non-excluded one as alternate, and attach the primary's tracks
(`tracksOf` models the `getPlaylistTracks` call and its mapping). -/
def getPlaylistForMood (rawItems : List (Option RawPlaylist))
    (excludePlaylistId : Option String) (tracksOf : String → List TrackInfo) :
    TracksWithMeta :=
  match validPlaylists rawItems with
  | [] => { tracks := [], playlist := none, alternatePlaylist := none }
  | p0 :: rest =>
      let playlists := p0 :: rest
      let primary := (playlists.find? (idNotExcluded excludePlaylistId)).getD p0
      let alt := playlists.find?
        (fun p => (p.id != primary.id) && idNotExcluded excludePlaylistId p)
      { tracks := tracksOf primary.id,
        playlist := some (metaOf primary),
        alternatePlaylist := alt.map metaOf }

/-! ## Shared concrete fixtures -/

/-- A search collaborator that always finds one playlist with one track. -/
def cSearchHit : SearchFn := fun _ _ _ =>
  { tracks := [{ name := "Song A", artists := "Artist A", url := some "https://sng" }],
    playlist := some { id := "pl1", name := "Playlist One", url := some "https://pl1" },
    alternatePlaylist := none }

/-- A search collaborator that never finds anything (empty result set). -/
def cSearchEmpty : SearchFn := fun _ _ _ =>
  { tracks := [], playlist := none, alternatePlaylist := none }

/-! ## Small helper lemmas -/

theorem intercalate_single (s a : String) : String.intercalate s [a] = a := rfl

theorem intercalate_pair (s a b : String) : String.intercalate s [a, b] = a ++ s ++ b := rfl

/-! ## C1 — artist-search query priority -/

/-- C1 (counterexample): the claim says the artist-search query equals the
first non-null of {artist, track}; but when both artist and track are
present the code pushes both, so the query is their concatenation, not the
artist alone. -/
theorem buildSearchQuery_both_present_counterexample :
    buildSearchQuery "artist_search" (some "drake") (some "Laugh Now Cry Later")
        none none "play laugh now cry later by drake" = "drake Laugh Now Cry Later" ∧
    buildSearchQuery "artist_search" (some "drake") (some "Laugh Now Cry Later")
        none none "play laugh now cry later by drake" ≠ "drake" := by
  decide

/-- C1 (amended): for artist-search classifications the query concatenates
artist and track — each included when non-null — space-separated and
trimmed; mood is used only when both artist and track are null, and the
raw lowercased message only when artist, track and mood are all null. -/
theorem buildSearchQuery_artist_priority (artist track mood vibe : Option String)
    (textLower : String) :
    (truthy artist = true → truthy track = true →
      buildSearchQuery "artist_search" artist track mood vibe textLower =
        jsTrim ((artist.getD "") ++ " " ++ (track.getD ""))) ∧
    (truthy artist = true → truthy track = false →
      buildSearchQuery "artist_search" artist track mood vibe textLower =
        jsTrim (artist.getD "")) ∧
    (truthy artist = false → truthy track = true →
      buildSearchQuery "artist_search" artist track mood vibe textLower =
        jsTrim (track.getD "")) ∧
    (truthy artist = false → truthy track = false → truthy mood = true →
      buildSearchQuery "artist_search" artist track mood vibe textLower =
        jsTrim (mood.getD "")) ∧
    (truthy artist = false → truthy track = false → truthy mood = false →
      buildSearchQuery "artist_search" artist track mood vibe textLower =
        jsTrim textLower) := by
  refine ⟨?_, ?_, ?_, ?_, ?_⟩ <;> intro h1 h2 <;>
    simp [buildSearchQuery, h1, h2, intercalate_pair, intercalate_single]
  · intro h3
    simp [h3, intercalate_single]
  · intro h3
    simp [h3, intercalate_single]

theorem buildSearchQuery_artist_priority_witness :
    truthy (some "drake") = true ∧ truthy (none : Option String) = false ∧
    buildSearchQuery "artist_search" (some "drake") none (some "sad") none "x" =
      jsTrim "drake" ∧
    buildSearchQuery "artist_search" none none (some "sad") none "x" = jsTrim "sad" := by
  refine ⟨by decide, by decide, ?_, ?_⟩
  · exact (buildSearchQuery_artist_priority (some "drake") none (some "sad") none "x").2.1
      (by decide) (by decide)
  · exact (buildSearchQuery_artist_priority none none (some "sad") none "x").2.2.2.1
      (by decide) (by decide) (by decide)

/-! ## C6 — classifier failure fallback -/

/-- C6 (counterexample): on a malformed (unparseable) response with a
non-empty message, the code returns `mood = null` — not the trimmed
lowercased raw message the claim requires. -/
theorem classify_malformed_mood_counterexample :
    (classifyMoodAndLanguage true "Feeling Sad" ApiOutcome.malformed).mood ≠
      some (jsToLower (jsTrim "Feeling Sad")) ∧
    (classifyMoodAndLanguage true "Feeling Sad" ApiOutcome.malformed).mood = none := by
  decide

/-- C6 (amended): `classifyMoodAndLanguage` is total (never raises). On
missing credentials or a thrown classifier call it returns
`mood = trimmed lowercased message (or null when empty)`, all other
fields null, intent `playlist`; on a malformed/unparseable response it
returns every field null with intent `playlist`. -/
theorem classify_failure_fallback (hasApiKey : Bool) (message : String) (api : ApiOutcome) :
    ((hasApiKey = false ∨ api = ApiOutcome.threw) →
      classifyMoodAndLanguage hasApiKey message api =
        { mood := if (jsToLower (jsTrim message)).isEmpty then none
                  else some (jsToLower (jsTrim message)),
          language := none, vibe := none, artist := none, track := none,
          intent := IntentType.playlist }) ∧
    (hasApiKey = true → api = ApiOutcome.malformed →
      classifyMoodAndLanguage hasApiKey message api =
        { mood := none, language := none, vibe := none, artist := none, track := none,
          intent := IntentType.playlist }) := by
  constructor
  · rintro (h | h)
    · subst h
      simp [classifyMoodAndLanguage, fallbackClassification]
    · subst h
      cases hasApiKey <;> simp [classifyMoodAndLanguage, fallbackClassification]
  · rintro h1 h2
    subst h1; subst h2
    rfl

theorem classify_failure_fallback_witness :
    classifyMoodAndLanguage false "  Sad Songs " ApiOutcome.threw =
      { mood := some "sad songs", language := none, vibe := none, artist := none,
        track := none, intent := IntentType.playlist } ∧
    classifyMoodAndLanguage true "anything" ApiOutcome.malformed =
      { mood := none, language := none, vibe := none, artist := none, track := none,
        intent := IntentType.playlist } := by
  constructor
  · have h := (classify_failure_fallback false "  Sad Songs " ApiOutcome.threw).1
      (Or.inl rfl)
    rw [h]; decide
  · exact (classify_failure_fallback true "anything" ApiOutcome.malformed).2 rfl rfl

/-! ## C7 — normalizer defends answered responses -/

/-- C7: when the classifier answers, every text field is null exactly when
it is unset / not a string / empty / whitespace-only, and is otherwise
trimmed and lowercased — except `track`, which is trimmed with its case
preserved; an unrecognized intent string maps to `other`. -/
theorem classifier_normalizer_defends (message : String) (p : ParsedClassification) :
    ((classifyMoodAndLanguage true message (ApiOutcome.answered p)).mood = none ↔
       ¬ ∃ s, p.mood = JField.str s ∧ (jsTrim s).isEmpty = false) ∧
    (∀ s, p.mood = JField.str s → (jsTrim s).isEmpty = false →
      (classifyMoodAndLanguage true message (ApiOutcome.answered p)).mood =
        some (jsToLower (jsTrim s))) ∧
    ((classifyMoodAndLanguage true message (ApiOutcome.answered p)).language = none ↔
       ¬ ∃ s, p.language = JField.str s ∧ (jsTrim s).isEmpty = false) ∧
    (∀ s, p.language = JField.str s → (jsTrim s).isEmpty = false →
      (classifyMoodAndLanguage true message (ApiOutcome.answered p)).language =
        some (jsToLower (jsTrim s))) ∧
    ((classifyMoodAndLanguage true message (ApiOutcome.answered p)).vibe = none ↔
       ¬ ∃ s, p.vibe = JField.str s ∧ (jsTrim s).isEmpty = false) ∧
    (∀ s, p.vibe = JField.str s → (jsTrim s).isEmpty = false →
      (classifyMoodAndLanguage true message (ApiOutcome.answered p)).vibe =
        some (jsToLower (jsTrim s))) ∧
    ((classifyMoodAndLanguage true message (ApiOutcome.answered p)).artist = none ↔
       ¬ ∃ s, p.artist = JField.str s ∧ (jsTrim s).isEmpty = false) ∧
    (∀ s, p.artist = JField.str s → (jsTrim s).isEmpty = false →
      (classifyMoodAndLanguage true message (ApiOutcome.answered p)).artist =
        some (jsToLower (jsTrim s))) ∧
    ((classifyMoodAndLanguage true message (ApiOutcome.answered p)).track = none ↔
       ¬ ∃ s, p.track = JField.str s ∧ (jsTrim s).isEmpty = false) ∧
    (∀ s, p.track = JField.str s → (jsTrim s).isEmpty = false →
      (classifyMoodAndLanguage true message (ApiOutcome.answered p)).track =
        some (jsTrim s)) ∧
    (∀ s, p.intent = JField.str s →
      jsToLower s ≠ "playlist" → jsToLower s ≠ "artist_search" →
      jsToLower s ≠ "repeat" → jsToLower s ≠ "change_vibe" →
      (classifyMoodAndLanguage true message (ApiOutcome.answered p)).intent =
        IntentType.other) := by
  have hrun : classifyMoodAndLanguage true message (ApiOutcome.answered p) =
      normalizeParsed p := rfl
  rw [hrun]
  refine ⟨?_, ?_, ?_, ?_, ?_, ?_, ?_, ?_, ?_, ?_, ?_⟩
  · cases h : p.mood with
    | absent => simp [normalizeParsed, normTextField, h]
    | nonString => simp [normalizeParsed, normTextField, h]
    | str s =>
        simp only [normalizeParsed, normTextField, h]
        split <;> simp_all
  · intro s hs h2; simp [normalizeParsed, normTextField, hs, h2]
  · cases h : p.language with
    | absent => simp [normalizeParsed, normTextField, h]
    | nonString => simp [normalizeParsed, normTextField, h]
    | str s =>
        simp only [normalizeParsed, normTextField, h]
        split <;> simp_all
  · intro s hs h2; simp [normalizeParsed, normTextField, hs, h2]
  · cases h : p.vibe with
    | absent => simp [normalizeParsed, normTextField, h]
    | nonString => simp [normalizeParsed, normTextField, h]
    | str s =>
        simp only [normalizeParsed, normTextField, h]
        split <;> simp_all
  · intro s hs h2; simp [normalizeParsed, normTextField, hs, h2]
  · cases h : p.artist with
    | absent => simp [normalizeParsed, normTextField, h]
    | nonString => simp [normalizeParsed, normTextField, h]
    | str s =>
        simp only [normalizeParsed, normTextField, h]
        split <;> simp_all
  · intro s hs h2; simp [normalizeParsed, normTextField, hs, h2]
  · cases h : p.track with
    | absent => simp [normalizeParsed, normTrackField, h]
    | nonString => simp [normalizeParsed, normTrackField, h]
    | str s =>
        simp only [normalizeParsed, normTrackField, h]
        split <;> simp_all
  · intro s hs h2; simp [normalizeParsed, normTrackField, hs, h2]
  · intro s hs h1 h2 h3 h4
    simp [normalizeParsed, normIntentField, hs, h1, h2, h3, h4]

/-- Concrete normalizer run: mixed unset / whitespace / cased fields and an
unrecognized intent string (`"user_stats"`). -/
def pC7 : ParsedClassification :=
  { mood := JField.str "  HAPPY ", language := JField.str "   ", vibe := JField.nonString,
    artist := JField.str "Drake", track := JField.str " Laugh Now ",
    intent := JField.str "user_stats" }

theorem classifier_normalizer_defends_witness :
    (classifyMoodAndLanguage true "m" (ApiOutcome.answered pC7)).mood =
      some (jsToLower (jsTrim "  HAPPY ")) ∧
    (classifyMoodAndLanguage true "m" (ApiOutcome.answered pC7)).language = none ∧
    (classifyMoodAndLanguage true "m" (ApiOutcome.answered pC7)).track =
      some (jsTrim " Laugh Now ") ∧
    (classifyMoodAndLanguage true "m" (ApiOutcome.answered pC7)).intent =
      IntentType.other := by
  refine ⟨?_, ?_, ?_, ?_⟩
  · exact (classifier_normalizer_defends "m" pC7).2.1 "  HAPPY " rfl (by decide)
  · refine ((classifier_normalizer_defends "m" pC7).2.2.1).mpr ?_
    rintro ⟨s, hs, he⟩
    simp only [pC7] at hs
    cases hs
    revert he
    decide
  · exact (classifier_normalizer_defends "m" pC7).2.2.2.2.2.2.2.2.2.1 " Laugh Now " rfl
      (by decide)
  · exact (classifier_normalizer_defends "m" pC7).2.2.2.2.2.2.2.2.2.2 "user_stats" rfl
      (by decide) (by decide) (by decide) (by decide)

/-! ## C10 — best-effort anti-repeat exclusion -/

/-- C10: with a non-empty set of valid search hits, `getPlaylistForMood`
always returns a primary playlist; when every hit carries the excluded id
the primary is the first hit (the excluded playlist itself, rather than
"nothing found"), and whenever some hit differs from the exclusion the
primary differs from it. -/
theorem getPlaylistForMood_exclusion_best_effort (rawItems : List (Option RawPlaylist))
    (ex : String) (tracksOf : String → List TrackInfo)
    (hne : validPlaylists rawItems ≠ []) :
    ∃ meta, (getPlaylistForMood rawItems (some ex) tracksOf).playlist = some meta ∧
      ((∀ p ∈ validPlaylists rawItems, p.id = ex) →
        ∃ p0, (validPlaylists rawItems).head? = some p0 ∧ meta = metaOf p0 ∧
          meta.id = ex) ∧
      ((∃ p ∈ validPlaylists rawItems, p.id ≠ ex) → meta.id ≠ ex) := by
  unfold getPlaylistForMood
  split
  · next heq => exact absurd heq hne
  · next p0 rest heq =>
      rcases hfind : (p0 :: rest).find? (idNotExcluded (some ex)) with _ | q
      · have hall : ∀ p ∈ p0 :: rest, p.id = ex := by
          intro p hp
          have := List.find?_eq_none.mp hfind p hp
          simp [idNotExcluded] at this
          exact this
        refine ⟨metaOf p0, by simp [hfind], ?_, ?_⟩
        · intro _
          exact ⟨p0, by rw [heq]; rfl, rfl, hall p0 (List.mem_cons_self _ _)⟩
        · rintro ⟨p, hp, hpne⟩
          exact absurd (hall p (heq ▸ hp)) hpne
      · have hq : idNotExcluded (some ex) q = true := List.find?_some hfind
        have hqne : q.id ≠ ex := by simpa [idNotExcluded] using hq
        refine ⟨metaOf q, by simp [hfind], ?_, ?_⟩
        · intro hall
          have hqmem : q ∈ validPlaylists rawItems :=
            heq ▸ List.mem_of_find?_eq_some hfind
          exact absurd (hall q hqmem) hqne
        · intro _
          simpa [metaOf] using hqne

theorem getPlaylistForMood_exclusion_witness :
    validPlaylists [none, some { id := "pl9", name := "Nine" }] ≠ [] ∧
    ∃ meta,
      (getPlaylistForMood [none, some { id := "pl9", name := "Nine" }] (some "pl9")
        (fun _ => [])).playlist = some meta ∧
      ((∀ p ∈ validPlaylists [none, some { id := "pl9", name := "Nine" }], p.id = "pl9") →
        ∃ p0, (validPlaylists [none, some { id := "pl9", name := "Nine" }]).head? =
            some p0 ∧ meta = metaOf p0 ∧ meta.id = "pl9") ∧
      ((∃ p ∈ validPlaylists [none, some { id := "pl9", name := "Nine" }], p.id ≠ "pl9") →
        meta.id ≠ "pl9") := by
  exact ⟨by decide,
    getPlaylistForMood_exclusion_best_effort [none, some { id := "pl9", name := "Nine" }]
      "pl9" (fun _ => []) (by decide)⟩

/-! ## C8 — most-recent-match lookup -/

theorem lexLe_refl (l : List Char) : lexLe l l = true := by
  induction l with
  | nil => rfl
  | cons a as ih => simp [lexLe, ih]

theorem lexLe_total (a b : List Char) : lexLe a b = true ∨ lexLe b a = true := by
  induction a generalizing b with
  | nil => exact Or.inl rfl
  | cons x xs ih =>
      cases b with
      | nil => exact Or.inr rfl
      | cons y ys =>
          by_cases hxy : x = y
          · subst hxy
            rcases ih ys with h | h
            · exact Or.inl (by simp [lexLe, h])
            · exact Or.inr (by simp [lexLe, h])
          · rcases lt_or_gt_of_ne hxy with h | h
            · exact Or.inl (by simp [lexLe, hxy, h])
            · exact Or.inr (by simp [lexLe, Ne.symm hxy, h])

theorem lexLe_trans : ∀ {a b c : List Char},
    lexLe a b = true → lexLe b c = true → lexLe a c = true := by
  intro a
  induction a with
  | nil => intro b c _ _; rfl
  | cons x xs ih =>
      intro b c h1 h2
      cases b with
      | nil => simp [lexLe] at h1
      | cons y ys =>
          cases c with
          | nil => simp [lexLe] at h2
          | cons z zs =>
              simp only [lexLe] at h1 h2 ⊢
              by_cases hxy : x = y
              · subst hxy
                simp only [if_pos rfl] at h1
                by_cases hyz : x = z
                · subst hyz
                  simp only [if_pos rfl] at h2 ⊢
                  exact ih h1 h2
                · simp only [if_neg hyz] at h2 ⊢
                  exact h2
              · simp only [if_neg hxy] at h1
                have hlt1 : x < y := of_decide_eq_true h1
                by_cases hyz : y = z
                · subst hyz
                  simp [if_neg hxy, hlt1]
                · simp only [if_neg hyz] at h2
                  have hlt2 : y < z := of_decide_eq_true h2
                  have hlt : x < z := lt_trans hlt1 hlt2
                  simp [if_neg (ne_of_lt hlt), hlt]

/-- C8: `getLastHistory` returns `undefined` exactly when no history entry
matches the (mood, language) pair case-insensitively, and otherwise
returns a matching entry whose `lastUsedAt` timestamp is greatest (in the
lexicographic order the code's descending sort uses) among all matching
entries. -/
theorem getLastHistory_latest_match (list : List HistoryEntry) (mood language : String) :
    (getLastHistory list mood language = none ↔
      ∀ e ∈ list, historyKeyMatches mood language e = false) ∧
    ∀ e, getLastHistory list mood language = some e →
      e ∈ list ∧ historyKeyMatches mood language e = true ∧
      ∀ e2 ∈ list, historyKeyMatches mood language e2 = true →
        strLeb e2.lastUsedAt e.lastUsedAt = true := by
  have htrans : ∀ a b c : HistoryEntry,
      (fun a b : HistoryEntry => strLeb b.lastUsedAt a.lastUsedAt) a b = true →
      (fun a b : HistoryEntry => strLeb b.lastUsedAt a.lastUsedAt) b c = true →
      (fun a b : HistoryEntry => strLeb b.lastUsedAt a.lastUsedAt) a c = true := by
    intro a b c h1 h2
    exact lexLe_trans h2 h1
  have htotal : ∀ a b : HistoryEntry,
      ((fun a b : HistoryEntry => strLeb b.lastUsedAt a.lastUsedAt) a b ||
        (fun a b : HistoryEntry => strLeb b.lastUsedAt a.lastUsedAt) b a) = true := by
    intro a b
    rcases lexLe_total b.lastUsedAt.data a.lastUsedAt.data with h | h <;> simp [strLeb, h]
  have hperm := List.mergeSort_perm (list.filter (historyKeyMatches mood language))
    (fun a b : HistoryEntry => strLeb b.lastUsedAt a.lastUsedAt)
  have hsorted := @List.sorted_mergeSort HistoryEntry
    (fun a b : HistoryEntry => strLeb b.lastUsedAt a.lastUsedAt) htrans htotal
    (list.filter (historyKeyMatches mood language))
  constructor
  · constructor
    · intro hnone
      have hnil : (list.filter (historyKeyMatches mood language)).mergeSort
          (fun a b : HistoryEntry => strLeb b.lastUsedAt a.lastUsedAt) = [] :=
        List.head?_eq_none_iff.mp hnone
      have hfil : list.filter (historyKeyMatches mood language) = [] :=
        (hnil ▸ hperm).symm.eq_nil
      intro e he
      have := List.filter_eq_nil_iff.mp hfil e he
      simpa using this
    · intro hall
      have hfil : list.filter (historyKeyMatches mood language) = [] := by
        apply List.filter_eq_nil_iff.mpr
        intro e he
        simp [hall e he]
      apply List.head?_eq_none_iff.mpr
      rw [hfil]
      simp [List.mergeSort]
  · intro e hsome
    cases hs : (list.filter (historyKeyMatches mood language)).mergeSort
        (fun a b : HistoryEntry => strLeb b.lastUsedAt a.lastUsedAt) with
    | nil =>
        simp only [getLastHistory] at hsome
        rw [hs] at hsome
        simp at hsome
    | cons a rest =>
        simp only [getLastHistory] at hsome
        rw [hs] at hsome
        have he : a = e := by simpa using hsome
        rw [← he]
        have hmema : a ∈ list.filter (historyKeyMatches mood language) := by
          apply (hperm.mem_iff).mp
          rw [hs]
          exact List.mem_cons_self a rest
        have hmem2 := List.mem_filter.mp hmema
        refine ⟨hmem2.1, hmem2.2, ?_⟩
        intro e2 he2 hkey2
        have hmemf : e2 ∈ list.filter (historyKeyMatches mood language) :=
          List.mem_filter.mpr ⟨he2, hkey2⟩
        have hmems : e2 ∈ a :: rest := by
          rw [← hs]
          exact (hperm.mem_iff).mpr hmemf
        rcases List.mem_cons.mp hmems with h | h
        · subst h
          exact lexLe_refl _
        · have hpair : List.Pairwise
              (fun x y : HistoryEntry =>
                (fun a b : HistoryEntry => strLeb b.lastUsedAt a.lastUsedAt) x y = true)
              (a :: rest) := by
            rw [← hs]
            exact hsorted
          exact (List.pairwise_cons.mp hpair).1 e2 h

def histA : HistoryEntry :=
  { mood := "Sad", language := "English", playlistId := "p1",
    playlistName := some "One", lastUsedAt := "2024-01-01T00:00:00.000Z" }

def histB : HistoryEntry :=
  { mood := "sad", language := "english", playlistId := "p2",
    playlistName := some "Two", lastUsedAt := "2024-03-01T00:00:00.000Z" }

def histC : HistoryEntry :=
  { mood := "happy", language := "english", playlistId := "p3",
    lastUsedAt := "2024-06-01T00:00:00.000Z" }

theorem getLastHistory_latest_match_witness :
    getLastHistory [histA, histB, histC] "SAD" "English" = some histB ∧
    histB ∈ [histA, histB, histC] ∧
    historyKeyMatches "SAD" "English" histB = true ∧
    strLeb histA.lastUsedAt histB.lastUsedAt = true := by
  have hfilter : [histA, histB, histC].filter (historyKeyMatches "SAD" "English") =
      [histA, histB] := by decide
  have hsort : [histA, histB].mergeSort
      (fun a b : HistoryEntry => strLeb b.lastUsedAt a.lastUsedAt) = [histB, histA] := by
    simp [List.mergeSort, List.merge, histA, histB, strLeb, lexLe]
  have hsome : getLastHistory [histA, histB, histC] "SAD" "English" = some histB := by
    simp only [getLastHistory]
    rw [hfilter, hsort]
    rfl
  have h := (getLastHistory_latest_match [histA, histB, histC] "SAD" "English").2
    histB hsome
  exact ⟨hsome, h.1, h.2.1, h.2.2 histA (by decide) (by decide)⟩

/-! ## C4 — waiting_language consumes the message as a language -/

/-- C4: while a user's session is in `waiting_language`, the turn's result
does not depend on the classifier at all (its output cannot change
anything), and the single search call uses the lowercased trimmed message
as the language and a query built from the session-remembered
mood/vibe/artist/track/intent. -/
theorem waiting_language_ignores_classifier (fromAddr bodyRaw : Option String)
    (s : SessionState) (hist : List HistoryEntry) (ai1 ai2 : Option ClassificationResult)
    (search : SearchFn) (fmtDate : String → String) (now : String)
    (hstage : s.stage = SessionStage.waiting_language) :
    handleWebhook fromAddr bodyRaw (some s) hist ai1 search fmtDate now =
      handleWebhook fromAddr bodyRaw (some s) hist ai2 search fmtDate now ∧
    (truthy fromAddr = true → (normalizeText bodyRaw).isEmpty = false →
      ∃ ex, (handleWebhook fromAddr bodyRaw (some s) hist ai1 search fmtDate now).searchCall =
        some { query := buildSearchQuery ((jsOr s.lastIntent).getD "playlist")
                  (jsOr s.lastArtist) (jsOr s.lastTrack) (jsOr s.mood) (jsOr s.vibe)
                  (jsToLower (normalizeText bodyRaw)),
               language := jsToLower (normalizeText bodyRaw),
               excludeId := ex }) := by
  constructor
  · by_cases hbad : (!truthy fromAddr || (normalizeText bodyRaw).isEmpty) = true
    · simp [handleWebhook, hbad]
    · simp only [Bool.not_eq_true] at hbad
      simp [handleWebhook, hbad, hstage]
  · intro h1 h2
    have hbad : (!truthy fromAddr || (normalizeText bodyRaw).isEmpty) = false := by
      simp [h1, h2]
    simp only [handleWebhook, hbad, Bool.false_eq_true, if_false, Option.getD_some]
    rw [if_pos hstage]
    simp only [handleWaitingLanguage]
    split
    · exact ⟨_, rfl⟩
    · exact ⟨_, rfl⟩

def wlSession : SessionState :=
  { stage := .waiting_language, mood := some "sad", vibe := none,
    lastArtist := none, lastTrack := none, lastIntent := some "playlist" }

def aiFix : ClassificationResult :=
  { mood := some "happy", language := some "english", intent := .playlist }

theorem waiting_language_ignores_classifier_witness :
    handleWebhook (some "u") (some "Hindi") (some wlSession) [] (some aiFix) cSearchHit
        (fun d => d) "t" =
      handleWebhook (some "u") (some "Hindi") (some wlSession) [] none cSearchHit
        (fun d => d) "t" ∧
    ∃ ex, (handleWebhook (some "u") (some "Hindi") (some wlSession) [] (some aiFix)
        cSearchHit (fun d => d) "t").searchCall =
      some { query := "sad", language := "hindi", excludeId := ex } := by
  have h := waiting_language_ignores_classifier (some "u") (some "Hindi") wlSession []
    (some aiFix) none cSearchHit (fun d => d) "t" rfl
  exact ⟨h.1, h.2 (by decide) (by decide)⟩

/-! ## C5 — empty search result leaves session and history untouched -/

/-- The property of one turn the empty-search policy asserts: history is
untouched, and if the turn made a search call at all, the session is also
untouched and the composed reply is the not-found message. -/
def UnchangedOnEmpty (session : Option SessionState) (hist : List HistoryEntry)
    (r : TurnResult) : Prop :=
  r.history = hist ∧
  (r.searchCall ≠ none →
    r.session = session ∧ r.outcome = Outcome.notFound ∧ r.reply ≠ none)

theorem handleWaitingLanguage_empty (session : Option SessionState) (current : SessionState)
    (hist : List HistoryEntry) (textLower : String) (search : SearchFn)
    (fmtDate : String → String) (now : String)
    (hempty : ∀ q l ex, search q l ex =
      { tracks := [], playlist := none, alternatePlaylist := none }) :
    UnchangedOnEmpty session hist
      (handleWaitingLanguage session current hist textLower search fmtDate now) := by
  simp [UnchangedOnEmpty, handleWaitingLanguage, hempty]

theorem handleRepeat_unchanged (session : Option SessionState) (current : SessionState)
    (hist : List HistoryEntry) :
    UnchangedOnEmpty session hist (handleRepeat session current hist) :=
  ⟨rfl, fun h => ((h rfl).elim : _)⟩

theorem handleChangeVibe_empty (session : Option SessionState) (current : SessionState)
    (hist : List HistoryEntry) (vibe artist track : Option String) (intent : IntentType)
    (search : SearchFn) (now : String)
    (hempty : ∀ q l ex, search q l ex =
      { tracks := [], playlist := none, alternatePlaylist := none }) :
    UnchangedOnEmpty session hist
      (handleChangeVibe session current hist vibe artist track intent search now) := by
  simp [UnchangedOnEmpty, handleChangeVibe, hempty]

theorem handleFresh_empty (session : Option SessionState) (hist : List HistoryEntry)
    (textLower : String) (mood detectedLanguage vibe artist track : Option String)
    (intent : IntentType) (search : SearchFn) (fmtDate : String → String) (now : String)
    (hempty : ∀ q l ex, search q l ex =
      { tracks := [], playlist := none, alternatePlaylist := none }) :
    UnchangedOnEmpty session hist
      (handleFresh session hist textLower mood detectedLanguage vibe artist track intent
        search fmtDate now) := by
  unfold handleFresh
  split
  · simp [UnchangedOnEmpty]
  · split
    · simp [UnchangedOnEmpty]
    · simp [UnchangedOnEmpty, hempty]

/-- C5: whenever the catalog search returns the empty result set, the turn
leaves the user's history untouched, and — for every turn that actually
searched — leaves the session exactly as it was and composes the
"couldn't find" reply. -/
theorem empty_search_leaves_state_unchanged (fromAddr bodyRaw : Option String)
    (session : Option SessionState) (hist : List HistoryEntry)
    (ai : Option ClassificationResult) (search : SearchFn) (fmtDate : String → String)
    (now : String)
    (hempty : ∀ q l ex, search q l ex =
      { tracks := [], playlist := none, alternatePlaylist := none }) :
    UnchangedOnEmpty session hist
      (handleWebhook fromAddr bodyRaw session hist ai search fmtDate now) := by
  simp only [handleWebhook]
  split
  · exact ⟨rfl, fun h => ((h rfl).elim : _)⟩
  · split
    · exact handleWaitingLanguage_empty _ _ _ _ _ _ _ hempty
    · simp only [handleClassified]
      split
      · exact handleRepeat_unchanged _ _ _
      · split
        · exact handleChangeVibe_empty _ _ _ _ _ _ _ _ _ hempty
        · exact handleFresh_empty _ _ _ _ _ _ _ _ _ _ _ _ hempty

theorem empty_search_leaves_state_unchanged_witness :
    (handleWebhook (some "u") (some "hindi") (some wlSession) [] none cSearchEmpty
        (fun d => d) "t").history = [] ∧
    (handleWebhook (some "u") (some "hindi") (some wlSession) [] none cSearchEmpty
        (fun d => d) "t").session = some wlSession ∧
    (handleWebhook (some "u") (some "hindi") (some wlSession) [] none cSearchEmpty
        (fun d => d) "t").outcome = Outcome.notFound := by
  have h := empty_search_leaves_state_unchanged (some "u") (some "hindi") (some wlSession)
    [] none cSearchEmpty (fun d => d) "t" (fun _ _ _ => rfl)
  exact ⟨h.1, (h.2 (by decide)).1, (h.2 (by decide)).2.1⟩

/-! ## C9 — repeat intent without a stored playlist -/

theorem handleFresh_ok (session : Option SessionState) (hist : List HistoryEntry)
    (textLower : String) (mood detectedLanguage vibe artist track : Option String)
    (intent : IntentType) (search : SearchFn) (fmtDate : String → String) (now : String) :
    (handleFresh session hist textLower mood detectedLanguage vibe artist track intent
      search fmtDate now).ok = true := by
  simp only [handleFresh]
  split
  · rfl
  · split
    · rfl
    · split <;> rfl

/-- C9 (amended): a repeat-intent message reaching a user whose session
stores no `lastPlaylistId` does not crash: the handler falls through to
the fresh-classification path and answers normally (`ok = true`); in
particular, when the classification carries no mood, artist or track
(the typical bare "play that again"), it degrades to the generic
rephrase reply and mutates neither session nor history. -/
theorem repeat_without_last_id_no_crash (fromAddr bodyRaw : Option String)
    (session : Option SessionState) (hist : List HistoryEntry) (c : ClassificationResult)
    (search : SearchFn) (fmtDate : String → String) (now : String)
    (hfrom : truthy fromAddr = true)
    (htext : (normalizeText bodyRaw).isEmpty = false)
    (_hintent : c.intent = IntentType.repeat_)
    (hstage : (session.getD { stage := .idle }).stage ≠ SessionStage.waiting_language)
    (hnoid : truthy (session.getD { stage := .idle }).lastPlaylistId = false) :
    (handleWebhook fromAddr bodyRaw session hist (some c) search fmtDate now).ok = true ∧
    (jsOr c.mood = none → jsOr c.artist = none → jsOr c.track = none →
      (handleWebhook fromAddr bodyRaw session hist (some c) search fmtDate now).outcome =
          Outcome.rephrase ∧
      (handleWebhook fromAddr bodyRaw session hist (some c) search fmtDate now).session =
          session ∧
      (handleWebhook fromAddr bodyRaw session hist (some c) search fmtDate now).history =
          hist) := by
  have hbad : (!truthy fromAddr || (normalizeText bodyRaw).isEmpty) = false := by
    simp [hfrom, htext]
  have hcur : hasCurrentPlaylist (session.getD { stage := .idle }) = false := by
    simp [hasCurrentPlaylist, hnoid]
  have hred : handleWebhook fromAddr bodyRaw session hist (some c) search fmtDate now =
      handleFresh session hist (jsToLower (normalizeText bodyRaw)) (jsOr c.mood)
        (jsOr c.language) (jsOr c.vibe) (jsOr c.artist) (jsOr c.track) c.intent
        search fmtDate now := by
    simp only [handleWebhook, hbad, Bool.false_eq_true, if_false]
    rw [if_neg hstage]
    simp [handleClassified, hcur]
  rw [hred]
  refine ⟨handleFresh_ok _ _ _ _ _ _ _ _ _ _ _ _, ?_⟩
  intro h1 h2 h3
  simp only [handleFresh]
  rw [if_pos ⟨h1, h2, h3⟩]
  exact ⟨rfl, rfl, rfl⟩

theorem repeat_without_last_id_witness :
    (handleWebhook (some "u") (some "play that again") none []
      (some { intent := IntentType.repeat_ }) cSearchEmpty (fun d => d) "t").ok = true ∧
    (handleWebhook (some "u") (some "play that again") none []
      (some { intent := IntentType.repeat_ }) cSearchEmpty (fun d => d) "t").outcome =
        Outcome.rephrase ∧
    (handleWebhook (some "u") (some "play that again") none []
      (some { intent := IntentType.repeat_ }) cSearchEmpty (fun d => d) "t").session =
        none ∧
    (handleWebhook (some "u") (some "play that again") none []
      (some { intent := IntentType.repeat_ }) cSearchEmpty (fun d => d) "t").history =
        [] := by
  have h := repeat_without_last_id_no_crash (some "u") (some "play that again") none []
    { intent := IntentType.repeat_ } cSearchEmpty (fun d => d) "t"
    (by decide) (by decide) rfl (by decide) (by decide)
  exact ⟨h.1, (h.2 rfl rfl rfl).1, (h.2 rfl rfl rfl).2.1, (h.2 rfl rfl rfl).2.2⟩

/-- C9 (counterexample): the claim promises a "no previous playlist" reply
for every repeat-intent turn without a `lastResultId`; but when the
classification also carries a mood and a language the handler instead runs
a fresh search and composes a brand-new recommendation, appending history
and overwriting the session, so no degradation reply exists on this path. -/
theorem repeat_without_last_id_counterexample :
    (handleWebhook (some "u") (some "play that sad one again in english") none []
      (some { mood := some "sad", language := some "english",
              intent := IntentType.repeat_ })
      cSearchHit (fun d => d) "2024-05-01T10:00:00.000Z").outcome =
        Outcome.recommended ∧
    (handleWebhook (some "u") (some "play that sad one again in english") none []
      (some { mood := some "sad", language := some "english",
              intent := IntentType.repeat_ })
      cSearchHit (fun d => d) "2024-05-01T10:00:00.000Z").history =
        [{ mood := "sad", language := "english", playlistId := "pl1",
           playlistName := some "Playlist One", playlistUrl := some "https://pl1",
           lastUsedAt := "2024-05-01T10:00:00.000Z" }] ∧
    (handleWebhook (some "u") (some "play that sad one again in english") none []
      (some { mood := some "sad", language := some "english",
              intent := IntentType.repeat_ })
      cSearchHit (fun d => d) "2024-05-01T10:00:00.000Z").session =
        some { stage := .playlist_shown, mood := some "sad", language := some "english",
               vibe := none, lastPlaylistId := some "pl1", lastArtist := none,
               lastTrack := none, lastIntent := some "repeat" } := by
  decide

/-! ## C2 — history is appended iff a recommendation was delivered with a
known mood -/

theorem append_singleton_ne (hist : List HistoryEntry) (e : HistoryEntry) :
    hist ++ [e] ≠ hist := by
  intro h
  have := congrArg List.length h
  simp at this

/-- What one turn may do to the history: either leave it alone or append
exactly one entry; nothing is appended unless the turn composed a
recommendation (so clarification, rephrase, repeat and failed-search turns
never append); and a recommendation turn appends exactly when the mood it
stored into the session is known (non-null). -/
def AppendsIffRecommended (hist : List HistoryEntry) (r : TurnResult) : Prop :=
  (r.history = hist ∨ ∃ e, r.history = hist ++ [e]) ∧
  (r.outcome ≠ Outcome.recommended → r.history = hist) ∧
  (r.outcome = Outcome.recommended →
    ((∃ e, r.history = hist ++ [e]) ↔ ∃ s, r.session = some s ∧ s.mood ≠ none))

theorem handleRepeat_appendsIff (session : Option SessionState) (current : SessionState)
    (hist : List HistoryEntry) :
    AppendsIffRecommended hist (handleRepeat session current hist) :=
  ⟨Or.inl rfl, fun _ => rfl, fun h => by simp [handleRepeat] at h⟩

theorem handleWaitingLanguage_appendsIff (session : Option SessionState)
    (current : SessionState) (hist : List HistoryEntry) (textLower : String)
    (search : SearchFn) (fmtDate : String → String) (now : String) :
    AppendsIffRecommended hist
      (handleWaitingLanguage session current hist textLower search fmtDate now) := by
  unfold AppendsIffRecommended
  simp only [handleWaitingLanguage]
  split
  · cases hm : jsOr current.mood with
    | some m =>
        refine ⟨Or.inr ⟨_, rfl⟩, fun hne => absurd rfl hne, fun _ => ?_⟩
        constructor
        · intro _
          exact ⟨_, rfl, by simp⟩
        · intro _
          exact ⟨_, rfl⟩
    | none =>
        refine ⟨Or.inl rfl, fun hne => absurd rfl hne, fun _ => ?_⟩
        constructor
        · rintro ⟨e, he⟩
          exact absurd he.symm (append_singleton_ne hist e)
        · rintro ⟨s, hs, hmood⟩
          rw [Option.some_inj] at hs
          subst hs
          exact absurd rfl hmood
  · exact ⟨Or.inl rfl, fun _ => rfl, fun h => by simp at h⟩

theorem handleChangeVibe_appendsIff (session : Option SessionState)
    (current : SessionState) (hist : List HistoryEntry)
    (vibe artist track : Option String) (intent : IntentType) (search : SearchFn)
    (now : String) :
    AppendsIffRecommended hist
      (handleChangeVibe session current hist vibe artist track intent search now) := by
  unfold AppendsIffRecommended
  simp only [handleChangeVibe]
  split
  · refine ⟨Or.inr ⟨_, rfl⟩, fun hne => absurd rfl hne, fun _ => ?_⟩
    constructor
    · intro _
      exact ⟨_, rfl, by simp⟩
    · intro _
      exact ⟨_, rfl⟩
  · exact ⟨Or.inl rfl, fun _ => rfl, fun h => by simp at h⟩

theorem handleFresh_appendsIff (session : Option SessionState) (hist : List HistoryEntry)
    (textLower : String) (mood detectedLanguage vibe artist track : Option String)
    (intent : IntentType) (search : SearchFn) (fmtDate : String → String) (now : String) :
    AppendsIffRecommended hist
      (handleFresh session hist textLower mood detectedLanguage vibe artist track intent
        search fmtDate now) := by
  unfold AppendsIffRecommended
  simp only [handleFresh]
  split
  · exact ⟨Or.inl rfl, fun _ => rfl, fun h => by simp at h⟩
  · split
    · exact ⟨Or.inl rfl, fun _ => rfl, fun h => by simp at h⟩
    · split
      · cases hm : mood with
        | some m =>
            refine ⟨Or.inr ⟨_, rfl⟩, fun hne => absurd rfl hne, fun _ => ?_⟩
            constructor
            · intro _
              exact ⟨_, rfl, by simp⟩
            · intro _
              exact ⟨_, rfl⟩
        | none =>
            refine ⟨Or.inl rfl, fun hne => absurd rfl hne, fun _ => ?_⟩
            constructor
            · rintro ⟨e, he⟩
              exact absurd he.symm (append_singleton_ne hist e)
            · rintro ⟨s, hs, hmood⟩
              rw [Option.some_inj] at hs
              subst hs
              exact absurd rfl hmood
      · exact ⟨Or.inl rfl, fun _ => rfl, fun h => by simp at h⟩

/-- C2 (amended): a turn appends at most one history entry; a clarification,
rephrase, repeat or failed-search turn appends nothing; and a turn
that delivers a recommendation appends exactly one entry if and only if
the mood stored into the session is known — a delivered recommendation
whose mood is null (e.g. a pure artist search) appends nothing. -/
theorem history_append_iff_recommended (fromAddr bodyRaw : Option String)
    (session : Option SessionState) (hist : List HistoryEntry)
    (ai : Option ClassificationResult) (search : SearchFn) (fmtDate : String → String)
    (now : String) :
    AppendsIffRecommended hist
      (handleWebhook fromAddr bodyRaw session hist ai search fmtDate now) := by
  simp only [handleWebhook]
  split
  · exact ⟨Or.inl rfl, fun _ => rfl, fun h => by simp at h⟩
  · split
    · exact handleWaitingLanguage_appendsIff _ _ _ _ _ _ _
    · simp only [handleClassified]
      split
      · exact handleRepeat_appendsIff _ _ _
      · split
        · exact handleChangeVibe_appendsIff _ _ _ _ _ _ _ _ _
        · exact handleFresh_appendsIff _ _ _ _ _ _ _ _ _ _ _ _

/-- C2 (counterexample): a delivered recommendation turn that appends no
history entry. The classifier extracted an artist and a language but no
mood, the search succeeded, the recommendation reply was composed and the
session was overwritten — yet the history stays empty, because the code
appends only under `if (mood)`. -/
theorem moodless_delivery_appends_nothing :
    (handleWebhook (some "whatsapp:+111") (some "songs by drake in english") none []
      (some { mood := none, language := some "english", artist := some "drake",
              intent := IntentType.artist_search })
      cSearchHit (fun d => d) "2024-05-01T10:00:00.000Z").outcome =
        Outcome.recommended ∧
    (handleWebhook (some "whatsapp:+111") (some "songs by drake in english") none []
      (some { mood := none, language := some "english", artist := some "drake",
              intent := IntentType.artist_search })
      cSearchHit (fun d => d) "2024-05-01T10:00:00.000Z").reply =
        some ("🎧 Here\x27s a playlist for songs by drake in \"english\":\n" ++
          "Playlist: Playlist One\nPlaylist link: https://pl1\n" ++
          "Song: Song A\nArtists: Artist A\nSong link: https://sng") ∧
    (handleWebhook (some "whatsapp:+111") (some "songs by drake in english") none []
      (some { mood := none, language := some "english", artist := some "drake",
              intent := IntentType.artist_search })
      cSearchHit (fun d => d) "2024-05-01T10:00:00.000Z").history = [] := by
  decide

theorem history_append_iff_recommended_witness :
    AppendsIffRecommended []
      (handleWebhook (some "u") (some "sad songs") none []
        (some { mood := some "sad", language := some "english",
                intent := IntentType.playlist })
        cSearchHit (fun d => d) "t") :=
  history_append_iff_recommended (some "u") (some "sad songs") none []
    (some { mood := some "sad", language := some "english", intent := IntentType.playlist })
    cSearchHit (fun d => d) "t"

/-! ## C3 — stats command (part_004 revision, the only one with stats) -/

/-- C3 (amended): in the `idle` and `playlist_shown` stages a message whose
trimmed lowercased text is the literal "stats" / "my stats" /
"show my stats" produces the stats reply (or the no-stats-yet reply when
the user has no history) and leaves both session and history untouched.
In `waiting_language` the stats command is not recognised — that branch
runs first and consumes the message as a language. The
`intent == "user_stats"` disjunct in the code can never fire, because
`IntentType` has no such value. -/
theorem stats_command_no_mutation (fromAddr bodyRaw : Option String)
    (session : Option SessionState) (hist : List HistoryEntry)
    (ai : Option ClassificationResult) (search : SearchFn) (fmtDate : String → String)
    (now : String)
    (hfrom : truthy fromAddr = true)
    (htext : (normalizeText bodyRaw).isEmpty = false)
    (hstage : (session.getD { stage := .idle }).stage ≠ SessionStage.waiting_language)
    (hstats : isStatsCommand (jsTrim (jsToLower (normalizeText bodyRaw))) = true) :
    (handleWebhookV2 fromAddr bodyRaw session hist ai search fmtDate now).session =
        session ∧
    (handleWebhookV2 fromAddr bodyRaw session hist ai search fmtDate now).history = hist ∧
    ((handleWebhookV2 fromAddr bodyRaw session hist ai search fmtDate now).outcome =
        Outcome.statsReply ∨
      (handleWebhookV2 fromAddr bodyRaw session hist ai search fmtDate now).outcome =
        Outcome.statsEmpty) := by
  have hbad : (!truthy fromAddr || (normalizeText bodyRaw).isEmpty) = false := by
    simp [hfrom, htext]
  have hred : handleWebhookV2 fromAddr bodyRaw session hist ai search fmtDate now =
      handleStats session hist fmtDate := by
    simp only [handleWebhookV2, hbad, Bool.false_eq_true, if_false]
    rw [if_neg hstage]
    simp [hstats]
  rw [hred]
  unfold handleStats
  split
  · exact ⟨rfl, rfl, Or.inr rfl⟩
  · exact ⟨rfl, rfl, Or.inl rfl⟩

/-- C3 (counterexample): a user in `waiting_language` who sends the literal
command "stats" does not get the stats reply; the message is consumed as
the language "stats", a search runs, the session is overwritten to
`playlist_shown` with `language := "stats"` and a history entry is
appended. -/
theorem stats_in_waiting_language_counterexample :
    (handleWebhookV2 (some "whatsapp:+111") (some "stats")
      (some { stage := .waiting_language, mood := some "sad",
              lastIntent := some "playlist" }) []
      none cSearchHit (fun d => d) "2024-05-01T10:00:00.000Z").outcome =
        Outcome.recommended ∧
    (handleWebhookV2 (some "whatsapp:+111") (some "stats")
      (some { stage := .waiting_language, mood := some "sad",
              lastIntent := some "playlist" }) []
      none cSearchHit (fun d => d) "2024-05-01T10:00:00.000Z").history =
        [{ mood := "sad", language := "stats", playlistId := "pl1",
           playlistName := some "Playlist One", playlistUrl := some "https://pl1",
           lastUsedAt := "2024-05-01T10:00:00.000Z" }] ∧
    (handleWebhookV2 (some "whatsapp:+111") (some "stats")
      (some { stage := .waiting_language, mood := some "sad",
              lastIntent := some "playlist" }) []
      none cSearchHit (fun d => d) "2024-05-01T10:00:00.000Z").session =
        some { stage := .playlist_shown, mood := some "sad", language := some "stats",
               vibe := none, lastPlaylistId := some "pl1", lastArtist := none,
               lastTrack := none, lastIntent := some "playlist" } := by
  decide

theorem stats_command_no_mutation_witness :
    (handleWebhookV2 (some "u") (some "My Stats") none [] none cSearchEmpty
        (fun d => d) "t").session = none ∧
    (handleWebhookV2 (some "u") (some "My Stats") none [] none cSearchEmpty
        (fun d => d) "t").history = [] ∧
    ((handleWebhookV2 (some "u") (some "My Stats") none [] none cSearchEmpty
        (fun d => d) "t").outcome = Outcome.statsReply ∨
      (handleWebhookV2 (some "u") (some "My Stats") none [] none cSearchEmpty
        (fun d => d) "t").outcome = Outcome.statsEmpty) :=
  stats_command_no_mutation (some "u") (some "My Stats") none [] none cSearchEmpty
    (fun d => d) "t" (by decide) (by decide) (by decide) (by decide)

end MCP2
